import Mathlib

/-!
Verification of the logz leveled structured-logging facade (src/log.go)
against its specification.  The Go source is shallowly embedded: pure
logic (the field normalizer, the verbosity gate arithmetic, constructor
wiring) is translated directly; interaction with the external zap engine
is modelled as an explicit engine-handle value plus a list of emission
records, following the boundary operations of the spec (section 6).
-/

set_option autoImplicit false

namespace Logz

/-! ### Engine severity levels (zapcore.Level, an int8 scale) -/

/-- zapcore.DebugLevel. -/
def debugLevel : Int := -1

/-- zapcore.InfoLevel. -/
def infoLevel : Int := 0

/-- zapcore.WarnLevel. -/
def warnLevel : Int := 1

/-- zapcore.ErrorLevel. -/
def errorLevel : Int := 2

/-- zapcore.DPanicLevel, the internal invariant-violation severity used by
the normalizer's diagnostics. -/
def dPanicLevel : Int := 3

/-- zapcore.PanicLevel. -/
def panicLevel : Int := 4

/-- zapcore.FatalLevel. -/
def fatalLevel : Int := 5

/-- Go conversion of an integer to the engine's int8 level type
(two's-complement truncation), as performed by the conversion
zapcore.Level(-1 * level) in zapLogger.V (src/log.go line 236). -/
def toInt8 (x : Int) : Int := (x + 128) % 256 - 128

/-- Modelled from the spec: the engine boundary operation
isLevelEnabled(engineHandle, level) of section 6; zap's LevelEnabler
reports a level enabled exactly when it is at or above the configured
minimum level. -/
def levelEnabled (minLevel lvl : Int) : Bool := decide (minLevel ≤ lvl)

/-! ### Arguments and fields -/

/-- A Go interface value as passed in a keyword call's variadic
key/value list.  The constructors cover the shapes the normalizer
distinguishes: a string, other plain payloads, and pre-built engine
fields passed either as a pointer (a *zap.Field, detected by the
normalizer's type assertion) or as a plain zap.Field value (which that
assertion does not match). -/
inductive Arg where
  | str : String → Arg
  | intV : Int → Arg
  | boolV : Bool → Arg
  | nilV : Arg
  | fieldPtr : String → Arg → Arg
  | fieldVal : String → Arg → Arg
deriving DecidableEq, Repr

/-- A typed structured field (zap.Field): a key with an arbitrary
payload.  Immutable once produced. -/
structure Field where
  key : String
  value : Arg
deriving DecidableEq, Repr

/-- zap.Any: wrap a key and an arbitrary value as a field. -/
def zapAny (k : String) (v : Arg) : Field := ⟨k, v⟩

/-- The zero value of zap.Field, as produced for each element of a slice
allocated by make with a nonzero length. -/
def zeroField : Field := ⟨"", Arg.nilV⟩

/-- An internal diagnostic record emitted by the normalizer through the
engine's DPanic call: its severity, message, and the attached field. -/
structure Diag where
  level : Int
  msg : String
  attached : Field
deriving DecidableEq, Repr

/-- True for an argument that is a *zap.Field, the shape matched by the
type assertion args[i].(*zap.Field) in handleFields (src/log.go
line 109). -/
def isFieldPtr : Arg → Bool
  | .fieldPtr _ _ => true
  | _ => false

/-- The type assertion key.(string): the string payload when the
argument is a string, none otherwise (src/log.go line 118). -/
def asString : Arg → Option String
  | .str s => some s
  | _ => none

/-- True for any pre-built field value (pointer or plain) placed in the
argument list. -/
def isPrebuiltField : Arg → Bool
  | .fieldPtr _ _ => true
  | .fieldVal _ _ => true
  | _ => false

/-- All diagnostics in the list carry the invariant-violation
(DPanic) severity. -/
def diagsAllDPanic (ds : List Diag) : Bool :=
  ds.all (fun d => d.level == dPanicLevel)

/-! ### The field normalizer (handleFields, src/log.go lines 103-129) -/

/-- Diagnostic message of src/log.go line 110. -/
def strongTypedFieldMsg : String := "Strongly-typed Zap Field pass to logz"

/-- Diagnostic message of src/log.go line 114. -/
def oddArgsMsg : String := "add number of arguments passed as key-value pairs for logging."

/-- Diagnostic message of src/log.go line 120. -/
def nonStringKeyMsg : String := "non-string key argument passed for logging"

/-- The scanning loop of handleFields (src/log.go lines 108-126),
returning the fields appended by the loop together with the diagnostics
raised via l.DPanic, in order.  The checks mirror the source order:
first the *zap.Field type assertion, then the trailing-unpaired-key
check (i == len(args)-1, i.e. no element follows), then the string-key
assertion; on any of the three the loop breaks after one diagnostic. -/
def handleFieldsLoop : List Arg → List Field × List Diag
  | [] => ([], [])
  | a :: rest =>
    if isFieldPtr a then
      ([], [⟨dPanicLevel, strongTypedFieldMsg, zapAny "zap field" a⟩])
    else
      match rest with
      | [] => ([], [⟨dPanicLevel, oddArgsMsg, zapAny "ignored key" a⟩])
      | v :: rest2 =>
        match asString a with
        | some keyStr =>
          let p := handleFieldsLoop rest2
          (zapAny keyStr v :: p.1, p.2)
        | none => ([], [⟨dPanicLevel, nonStringKeyMsg, zapAny "invalid key" a⟩])

/-- handleFields (src/log.go lines 103-129).  An empty argument list
returns the additional list unchanged.  Otherwise the source allocates
fields := make([]zap.Field, len(args)/2+len(additional)) — a slice
whose LENGTH is that count, so it already holds that many zero-valued
fields — and the loop appends pair fields after them; the additional
fields themselves are never appended.  The function cannot fail; caller
misuse surfaces only as diagnostics. -/
def handleFields (args : List Arg) (additional : List Field) :
    List Field × List Diag :=
  if args = [] then (additional, [])
  else
    (List.replicate (args.length / 2 + additional.length) zeroField
       ++ (handleFieldsLoop args).1,
     (handleFieldsLoop args).2)

/-- A well-formed leading pair region: even length, every key position
holds a string (hence not a *zap.Field). -/
def wfPairs : List Arg → Bool
  | [] => true
  | [_] => false
  | k :: _ :: rest => !isFieldPtr k && (asString k).isSome && wfPairs rest

/-- The fields the loop produces for a list of well-formed pairs, in
input order. -/
def pairFields : List Arg → List Field
  | .str k :: v :: rest => zapAny k v :: pairFields rest
  | _ => []

/-! ### The engine boundary (zap, modelled per section 6 of the spec) -/

/-- Modelled from the spec: a handle to the external engine's logger
object (a *zap.Logger), the opaque collaborator of section 6.  The
state visible through the boundary operations is the configured minimum
level, the accumulated logical name, and the persistent context
fields. -/
structure ZapEngine where
  minLevel : Int
  name : String
  context : List Field
deriving DecidableEq, Repr

/-- An emission handed to the engine: severity, logger name, message and
attached fields (the persistent context followed by the call's
fields). -/
structure Emission where
  level : Int
  name : String
  msg : String
  fields : List Field
deriving DecidableEq, Repr

/-- Modelled from the spec: the boundary operation
emit(engineHandle, level, message, fields) of section 6, guarded by the
enablement check the engine performs in Check: one emission when the
level is enabled, none otherwise.  Engine-internal sampling and
encoding are out of scope (section 1). -/
def zapEmit (e : ZapEngine) (lvl : Int) (msg : String) (fs : List Field) :
    List Emission :=
  if levelEnabled e.minLevel lvl then
    [⟨lvl, e.name, msg, e.context ++ fs⟩]
  else []

/-- The emissions produced by the normalizer's DPanic diagnostics, each
carrying its attached field, in order. -/
def emitDiags (e : ZapEngine) (ds : List Diag) : List Emission :=
  ds.foldr (fun d acc => zapEmit e d.level d.msg [d.attached] ++ acc) []

/-- Modelled from the spec: the boundary operation
deriveWithFields(engineHandle, fields) of section 6 (zap's
Logger.With): a new handle whose persistent context is extended. -/
def zapWith (e : ZapEngine) (fs : List Field) : ZapEngine :=
  { e with context := e.context ++ fs }

/-- Modelled from the spec: the boundary operation
deriveNamed(engineHandle, nameSegment) of section 6 (zap's
Logger.Named): an empty segment leaves the handle unchanged, otherwise
the segment is appended to the logical name, dot-separated. -/
def zapNamed (e : ZapEngine) (s : String) : ZapEngine :=
  if s = "" then e
  else { e with name := if e.name = "" then s else e.name ++ "." ++ s }

/-- Modelled from the spec: Go standard-library string formatting
(fmt.Sprintf), external to the repository; the formatted content is
opaque to every claim, rendered here as the template followed by the
arguments. -/
def renderArg : Arg → String
  | .str s => s
  | .intV n => toString n
  | .boolV b => toString b
  | .nilV => "nil"
  | .fieldPtr k _ => k
  | .fieldVal k _ => k

/-- Modelled from the spec: fmt.Sprintf applied to a template and
positional arguments (content opaque to the claims). -/
def goSprintf (template : String) (args : List Arg) : String :=
  template ++ String.join (args.map renderArg)

/-- Modelled from the spec: Go's byte-slice-to-string conversion
string(p) used by Write; the claims do not depend on its content. -/
def stringOfBytes (p : List Nat) : String :=
  String.mk (p.map (fun b => Char.ofNat (b % 256)))

/-! ### Info-only loggers (src/log.go lines 13-100) -/

/-- The infoLogger struct (src/log.go lines 76-79): a bound emission
level and an engine handle. -/
structure InfoLoggerCore where
  level : Int
  log : ZapEngine
deriving DecidableEq, Repr

/-- The InfoLogger interface value: either a real infoLogger or the
stateless emptyInfoLogeer whose methods are all no-ops (src/log.go
lines 66-73). -/
inductive InfoLogger where
  | real : InfoLoggerCore → InfoLogger
  | noop : InfoLogger
deriving DecidableEq, Repr

/-- The shared no-op instance disabledInfoLogeer (src/log.go line 73). -/
def disabledInfoLogeer : InfoLogger := .noop

/-- Enable (src/log.go lines 71 and 98-100): true for every real
infoLogger, false for the no-op instance. -/
def InfoLogger.Enable : InfoLogger → Bool
  | .real _ => true
  | .noop => false

/-- Info (src/log.go lines 68 and 81-85): Check at the bound level,
then Write the fields; the no-op instance does nothing. -/
def InfoLogger.Info : InfoLogger → String → List Field → List Emission
  | .real l, msg, fs => zapEmit l.log l.level msg fs
  | .noop, _, _ => []

/-- Infof (src/log.go lines 69 and 86-90): Check at the bound level
with the formatted message, then Write with no fields; the no-op
instance does nothing. -/
def InfoLogger.Infof : InfoLogger → String → List Arg → List Emission
  | .real l, template, args => zapEmit l.log l.level (goSprintf template args) []
  | .noop, _, _ => []

/-- Infow (src/log.go lines 70 and 92-96): Check at the bound level;
when enabled, run the normalizer (whose diagnostics reach the engine
first) and Write its fields; the no-op instance does nothing. -/
def InfoLogger.Infow : InfoLogger → String → List Arg → List Emission
  | .real l, msg, kvs =>
    if levelEnabled l.log.minLevel l.level then
      emitDiags l.log (handleFields kvs []).2 ++
        [⟨l.level, l.log.name, msg, l.log.context ++ (handleFields kvs []).1⟩]
    else []
  | .noop, _, _ => []

/-! ### Configuration and construction (src/log.go lines 131-200) -/

/-- Modelled from the spec: the Options configuration value is declared
in a repository file outside src/log.go; its fields follow the
configuration surface of section 6 (level text, encoding format, color,
development mode, stack-trace and caller switches, output destinations,
logical name). -/
structure Options where
  Level : String
  Format : String
  EnableColor : Bool
  Development : Bool
  DisableStacktrace : Bool
  DisableCaller : Bool
  OutputPaths : List String
  ErrorOutputPaths : List String
  Name : String
deriving DecidableEq, Repr

/-- Modelled from the spec: NewOptions, the default-configuration
constructor declared outside src/log.go; defaults follow section 6
(informational level, console format, standard output destinations, no
name). -/
def NewOptions : Options :=
  { Level := "info"
    Format := "console"
    EnableColor := false
    Development := false
    DisableStacktrace := false
    DisableCaller := false
    OutputPaths := ["stdout"]
    ErrorOutputPaths := ["stderr"]
    Name := "" }

/-- Modelled from the spec: the engine's level-text parsing invoked by
New through zapLevel.UnmarshalText (section 6: level text parsed to an
engine level); the recognised names map to the engine severities,
anything else fails to parse. -/
def unmarshalLevelText : String → Option Int
  | "debug" | "DEBUG" => some debugLevel
  | "info" | "INFO" | "" => some infoLevel
  | "warn" | "WARN" => some warnLevel
  | "error" | "ERROR" => some errorLevel
  | "dpanic" | "DPANIC" => some dPanicLevel
  | "panic" | "PANIC" => some panicLevel
  | "fatal" | "FATAL" => some fatalLevel
  | _ => none

/-- The zapLogger struct (src/log.go lines 131-134): the named engine
handle plus the embedded infoLogger's bound level and handle. -/
structure ZapLogger where
  zapLogger : ZapEngine
  level : Int
  log : ZapEngine
deriving DecidableEq, Repr

/-- NewLogger (src/log.go lines 290-298): wrap an engine handle, with
the embedded info logger bound to the informational level on the same
handle. -/
def NewLogger (e : ZapEngine) : ZapLogger :=
  { zapLogger := e, level := infoLevel, log := e }

/-- The body of New after the nil-options substitution (src/log.go
lines 145-199): parse the level text, falling back to the informational
level when parsing fails; build the engine at that level (encoder,
sampling and output-path configuration concern only the opaque engine's
encoding and are out of scope, section 1); the zapLogger field gets the
handle named with opts.Name while the embedded infoLogger keeps the
unnamed handle at the informational level. -/
def NewFromOptions (opts : Options) : ZapLogger :=
  let zapLevel : Int :=
    match unmarshalLevelText opts.Level with
    | some lvl => lvl
    | none => infoLevel
  let l : ZapEngine := { minLevel := zapLevel, name := "", context := [] }
  { zapLogger := zapNamed l opts.Name, level := infoLevel, log := l }

/-- New (src/log.go lines 141-200); a nil options pointer is the none
case and is replaced by NewOptions (lines 142-144).  The source returns
no error value; the only failure is a process abort when the engine
itself cannot be built. -/
def New : Option Options → ZapLogger
  | none => NewFromOptions NewOptions
  | some opts => NewFromOptions opts

/-- A configuration whose level text the engine cannot parse. -/
def verboseOptions : Options := { NewOptions with Level := "verbose" }

/-- A configuration at the debug level: verbosity is enabled up to 1. -/
def debugOptions : Options := { NewOptions with Level := "debug" }

/-! ### Full-logger operations used by the claims -/

/-- V (src/log.go lines 235-245): convert the verbosity number through
the int8 level type, query the engine's enablement on the named handle,
and return either a real info logger bound to that level and handle or
the shared no-op instance. -/
def ZapLogger.V (l : ZapLogger) (level : Int) : InfoLogger :=
  let lvl := toInt8 (-1 * level)
  if levelEnabled l.zapLogger.minLevel lvl then
    .real { level := lvl, log := l.zapLogger }
  else
    disabledInfoLogeer

/-- Write (src/log.go lines 247-251): emit the byte sequence as an
informational message on the named handle, then return the full input
length and a nil error, whatever the emission outcome was. -/
def ZapLogger.Write (l : ZapLogger) (p : List Nat) :
    List Emission × Nat × Option String :=
  (zapEmit l.zapLogger infoLevel (stringOfBytes p) [], p.length, none)

/-- The Full logger's Info method (src/log.go lines 328-330):
l.zapLogger.Info emits at the informational level on the named
handle. -/
def ZapLogger.Info (l : ZapLogger) (msg : String) (fs : List Field) :
    List Emission :=
  zapEmit l.zapLogger infoLevel msg fs

/-- WithValue (src/log.go lines 265-269), in receiver-state-passing
form: the first component is the receiver's state when the call
returns — the body stores nothing through the receiver, so it is the
input state — and the second is the new logger wrapping the derived
handle.  (The normalizer's diagnostics, if any, only reach the engine's
output and touch no logger state.) -/
def ZapLogger.WithValue (l : ZapLogger) (keysAndValues : List Arg) :
    ZapLogger × ZapLogger :=
  (l, NewLogger (zapWith l.zapLogger (handleFields keysAndValues []).1))

/-- WithName (src/log.go lines 275-279), in receiver-state-passing
form: the body stores nothing through the receiver; the new logger
wraps the handle derived with the name segment. -/
def ZapLogger.WithName (l : ZapLogger) (s : String) :
    ZapLogger × ZapLogger :=
  (l, NewLogger (zapNamed l.zapLogger s))

/-! ### Helper lemmas -/

/-- The int8 conversion is the identity on the representable range. -/
theorem toInt8_eq_self (x : Int) (h1 : -128 ≤ x) (h2 : x ≤ 127) :
    toInt8 x = x := by
  unfold toInt8
  have h : (x + 128) % 256 = x + 128 :=
    Int.emod_eq_of_lt (by omega) (by omega)
  omega

/-- Deriving a named handle does not change the configured minimum
level. -/
theorem zapNamed_minLevel (e : ZapEngine) (s : String) :
    (zapNamed e s).minLevel = e.minLevel := by
  unfold zapNamed
  split <;> rfl

/-- The gate's decision in V reduces to the engine's enablement query
at the converted level. -/
theorem V_enable_iff (l : ZapLogger) (v : Int) :
    (l.V v).Enable = true ↔
      levelEnabled l.zapLogger.minLevel (toInt8 (-1 * v)) = true := by
  unfold ZapLogger.V
  cases h : levelEnabled l.zapLogger.minLevel (toInt8 (-1 * v)) <;>
    simp only [h] <;> simp [InfoLogger.Enable, disabledInfoLogeer]

/-- The loop consumes a well-formed pair region, producing its pair
fields in order and passing control to the remainder. -/
theorem handleFieldsLoop_append (p rest : List Arg) (h : wfPairs p = true) :
    handleFieldsLoop (p ++ rest) =
      (pairFields p ++ (handleFieldsLoop rest).1, (handleFieldsLoop rest).2) :=
  match p, h with
  | [], _ => by simp [pairFields]
  | [_], h => by simp [wfPairs] at h
  | k :: v :: p', h => by
    rw [wfPairs] at h
    simp only [Bool.and_eq_true, Bool.not_eq_true'] at h
    obtain ⟨⟨hk1, hk2⟩, hp'⟩ := h
    obtain ⟨s, hs⟩ := Option.isSome_iff_exists.mp hk2
    have hks : k = Arg.str s := by
      cases k <;> simp_all [asString]
    subst hks
    have ih := handleFieldsLoop_append p' rest hp'
    simp [handleFieldsLoop, isFieldPtr, asString, pairFields, ih]

/-! ### Claim theorems -/

/-- C1.  The claim states that for a well-formed even-length key/value
list with an empty additional list, handleFields returns exactly
len(args)/2 fields, the i-th carrying key args[2i] and value
args[2i+1].  The code instead pre-fills the result with
len(args)/2 zero-valued fields (make is called with that count as the
slice LENGTH, not capacity) and appends the pair fields after them.
This theorem evaluates the code at the failing input
args = ["a", "b"]: the result is a zero field followed by the pair
field, so its length is 2, not len(args)/2 = 1. -/
theorem handleFields_even_pair_eval :
    handleFields [Arg.str "a", Arg.str "b"] [] =
      ([zeroField, zapAny "a" (Arg.str "b")], []) ∧
    (handleFields [Arg.str "a", Arg.str "b"] []).1.length ≠
      [Arg.str "a", Arg.str "b"].length / 2 := by
  decide

/-- C2.  The claim states that the odd-length keyword argument list
["region", "us-east", "count"] produces exactly one field
(region: us-east) and exactly one internal diagnostic.  The diagnostic
part holds (one DPanic record for the trailing unpaired key), but the
returned field list is a zero-valued padding field followed by the pair
field — two fields, not one — because of the same make-length slip.
This theorem evaluates the code at that input. -/
theorem handleFields_odd_scenario_eval :
    handleFields [Arg.str "region", Arg.str "us-east", Arg.str "count"] [] =
      ([zeroField, zapAny "region" (Arg.str "us-east")],
       [⟨dPanicLevel, oddArgsMsg, zapAny "ignored key" (Arg.str "count")⟩]) ∧
    (handleFields [Arg.str "region", Arg.str "us-east", Arg.str "count"] []).2.length = 1 ∧
    (handleFields [Arg.str "region", Arg.str "us-east", Arg.str "count"] []).1.length ≠ 1 := by
  decide

/-- C3.  Whenever a pre-built field value (a *zap.Field pointer or a
plain zap.Field value) sits at a key position after a region of
well-formed pairs, handleFields emits exactly one diagnostic, that
diagnostic carries the invariant-violation (DPanic) severity, and the
output fields are precisely the slice padding followed by the fields of
the earlier pairs — nothing from the remaining input is processed. -/
theorem handleFields_prebuilt_stops (p rest : List Arg) (f : Arg)
    (additional : List Field)
    (hp : wfPairs p = true) (hf : isPrebuiltField f = true) :
    (handleFields (p ++ f :: rest) additional).2.length = 1 ∧
    diagsAllDPanic (handleFields (p ++ f :: rest) additional).2 = true ∧
    (handleFields (p ++ f :: rest) additional).1 =
      List.replicate ((p ++ f :: rest).length / 2 + additional.length) zeroField
        ++ pairFields p := by
  have hloop := handleFieldsLoop_append p (f :: rest) hp
  have hsuf : (handleFieldsLoop (f :: rest)).1 = [] ∧
      (handleFieldsLoop (f :: rest)).2.length = 1 ∧
      diagsAllDPanic (handleFieldsLoop (f :: rest)).2 = true := by
    cases f <;> simp [isPrebuiltField] at hf
    · simp [handleFieldsLoop.eq_def, isFieldPtr, diagsAllDPanic]
    · cases rest <;>
        simp [handleFieldsLoop.eq_def, isFieldPtr, asString, diagsAllDPanic]
  have hne : ¬(p ++ f :: rest = []) := by simp
  unfold handleFields
  rw [if_neg hne, hloop]
  exact ⟨by simp [hsuf.2.1], by simp [hsuf.2.2], by simp [hsuf.1]⟩

/-- C3 witness: the theorem applied to the concrete input
["k", "v", *zap.Field("x": "y")] with no additional fields. -/
theorem handleFields_prebuilt_stops_witness :
    wfPairs [Arg.str "k", Arg.str "v"] = true ∧
    isPrebuiltField (Arg.fieldPtr "x" (Arg.str "y")) = true ∧
    ((handleFields ([Arg.str "k", Arg.str "v"] ++ Arg.fieldPtr "x" (Arg.str "y") :: []) []).2.length = 1 ∧
     diagsAllDPanic (handleFields ([Arg.str "k", Arg.str "v"] ++ Arg.fieldPtr "x" (Arg.str "y") :: []) []).2 = true ∧
     (handleFields ([Arg.str "k", Arg.str "v"] ++ Arg.fieldPtr "x" (Arg.str "y") :: []) []).1 =
       List.replicate (([Arg.str "k", Arg.str "v"] ++ Arg.fieldPtr "x" (Arg.str "y") :: []).length / 2
           + ([] : List Field).length) zeroField
         ++ pairFields [Arg.str "k", Arg.str "v"]) :=
  ⟨by decide, by decide,
   handleFields_prebuilt_stops [Arg.str "k", Arg.str "v"] []
     (Arg.fieldPtr "x" (Arg.str "y")) [] (by decide) (by decide)⟩

/-- C4.  With an empty argument list, handleFields returns the
additional field list unchanged and raises no diagnostic; with both
lists empty it returns the empty field list. -/
theorem handleFields_empty_args (additional : List Field) :
    handleFields [] additional = (additional, []) ∧
    handleFields [] [] = (([] : List Field), ([] : List Diag)) := by
  constructor <;> simp [handleFields]

/-- C4 witness: the theorem applied at a concrete additional list. -/
theorem handleFields_empty_args_witness :
    handleFields [] [zapAny "a" (Arg.str "b")] = ([zapAny "a" (Arg.str "b")], []) ∧
    handleFields [] [] = (([] : List Field), ([] : List Diag)) :=
  handleFields_empty_args [zapAny "a" (Arg.str "b")]

/-- C5 counterexample.  The claim quantifies over all non-negative
verbosity numbers, but V converts the verbosity through the engine's
int8 level type: zapcore.Level(-1 * level) truncates, so -129 wraps to
127.  Under the default configuration (minimum level info), V(129) is
therefore enabled while V(1) is not, refuting enabled(V2) implies
enabled(V1) at V1 = 1 < V2 = 129. -/
theorem V_monotone_counterexample :
    (0 : Int) ≤ 1 ∧ (1 : Int) < 129 ∧
    ((New (some NewOptions)).V 129).Enable = true ∧
    ((New (some NewOptions)).V 1).Enable = false := by
  decide

/-- C5 amended.  On the range where -V is exactly representable in the
engine's int8 level type — verbosity numbers up to 128 — enablement is
monotone: for 0 ≤ V1 < V2 ≤ 128 under any fixed configuration, if
V(V2) returns a real (enabled) info logger then so does V(V1). -/
theorem V_enabled_monotone (l : ZapLogger) (v1 v2 : Int)
    (h0 : 0 ≤ v1) (h12 : v1 < v2) (h2 : v2 ≤ 128)
    (he : (l.V v2).Enable = true) : (l.V v1).Enable = true := by
  rw [V_enable_iff] at he ⊢
  have e2 : toInt8 (-1 * v2) = -1 * v2 := toInt8_eq_self _ (by omega) (by omega)
  have e1 : toInt8 (-1 * v1) = -1 * v1 := toInt8_eq_self _ (by omega) (by omega)
  rw [e2] at he
  rw [e1]
  simp only [levelEnabled, decide_eq_true_eq] at he ⊢
  omega

/-- C5 witness: under the debug configuration, V(1) is enabled, and the
amended monotonicity yields that V(0) is enabled. -/
theorem V_enabled_monotone_witness :
    (0 : Int) ≤ 0 ∧ (0 : Int) < 1 ∧ (1 : Int) ≤ 128 ∧
    ((New (some debugOptions)).V 1).Enable = true ∧
    ((New (some debugOptions)).V 0).Enable = true :=
  ⟨by decide, by decide, by decide, by decide,
   V_enabled_monotone (New (some debugOptions)) 0 1 (by decide) (by decide)
     (by decide) (by decide)⟩

/-- C6.  When the engine reports the converted level of a verbosity
number as not enabled, V returns the shared no-op instance
disabledInfoLogeer; its enablement query is false, and its Info, Infof
and Infow calls produce no emission and never reach the engine. -/
theorem V_disabled_noop (l : ZapLogger) (v : Int) (msg t : String)
    (fs : List Field) (args kvs : List Arg)
    (h : levelEnabled l.zapLogger.minLevel (toInt8 (-1 * v)) = false) :
    l.V v = disabledInfoLogeer ∧
    (l.V v).Enable = false ∧
    (l.V v).Info msg fs = [] ∧
    (l.V v).Infof t args = [] ∧
    (l.V v).Infow msg kvs = [] := by
  have hv : l.V v = disabledInfoLogeer := by
    unfold ZapLogger.V
    simp only [h]
    simp
  refine ⟨hv, ?_, ?_, ?_, ?_⟩ <;>
    simp [hv, disabledInfoLogeer, InfoLogger.Enable, InfoLogger.Info,
      InfoLogger.Infof, InfoLogger.Infow]

/-- C6 witness: the spec's concrete scenario — under a configuration
enabling verbosity up to 1 (debug), V(2) is gated off and the returned
logger is the inert shared instance. -/
theorem V_disabled_noop_witness :
    levelEnabled (New (some debugOptions)).zapLogger.minLevel (toInt8 (-1 * 2)) = false ∧
    ((New (some debugOptions)).V 2 = disabledInfoLogeer ∧
     ((New (some debugOptions)).V 2).Enable = false ∧
     ((New (some debugOptions)).V 2).Info "m" [zapAny "a" (Arg.str "b")] = [] ∧
     ((New (some debugOptions)).V 2).Infof "t" [Arg.str "x"] = [] ∧
     ((New (some debugOptions)).V 2).Infow "m" [Arg.str "k", Arg.str "v"] = []) :=
  ⟨by decide,
   V_disabled_noop (New (some debugOptions)) 2 "m" "t"
     [zapAny "a" (Arg.str "b")] [Arg.str "x"] [Arg.str "k", Arg.str "v"]
     (by decide)⟩

/-- C7.  Write always returns the full input length and a nil error,
whatever the underlying emission outcome was. -/
theorem Write_full_length_nil_error (l : ZapLogger) (p : List Nat) :
    (l.Write p).2 = (p.length, none) := rfl

/-- C7 witness: the theorem applied to the default logger and the
two-byte input [104, 105]. -/
theorem Write_full_length_nil_error_witness :
    ((New (some NewOptions)).Write [104, 105]).2 = (2, none) :=
  Write_full_length_nil_error (New (some NewOptions)) [104, 105]

/-- C8.  WithValue and WithName, written with the receiver's state
passed explicitly, store nothing through the receiver: the receiver
state when the call returns is the input state, so its engine handle,
bound level, Info emissions and verbosity gating are unchanged; only
the returned new logger carries the derived handle — WithValue extends
the persistent context with the normalizer's output, WithName derives
the named handle. -/
theorem WithValue_WithName_non_mutating (l : ZapLogger) (kvs : List Arg)
    (s msg : String) (fs : List Field) (v : Int) :
    (l.WithValue kvs).1 = l ∧
    (l.WithName s).1 = l ∧
    ((l.WithValue kvs).1).zapLogger = l.zapLogger ∧
    ((l.WithValue kvs).1).level = l.level ∧
    ((l.WithValue kvs).1).Info msg fs = l.Info msg fs ∧
    ((l.WithValue kvs).1).V v = l.V v ∧
    ((l.WithValue kvs).2).zapLogger.context =
      l.zapLogger.context ++ (handleFields kvs []).1 ∧
    ((l.WithName s).2).zapLogger = zapNamed l.zapLogger s := by
  refine ⟨rfl, rfl, rfl, rfl, rfl, rfl, ?_, rfl⟩
  simp [ZapLogger.WithValue, NewLogger, zapWith]

/-- C8 witness: the theorem applied to the default logger with a
concrete pair list, name segment, message, field and verbosity. -/
theorem WithValue_WithName_non_mutating_witness :
    ((New (some NewOptions)).WithValue [Arg.str "a", Arg.str "b"]).1 = New (some NewOptions) ∧
    ((New (some NewOptions)).WithName "api").1 = New (some NewOptions) ∧
    (((New (some NewOptions)).WithValue [Arg.str "a", Arg.str "b"]).1).zapLogger =
      (New (some NewOptions)).zapLogger ∧
    (((New (some NewOptions)).WithValue [Arg.str "a", Arg.str "b"]).1).level =
      (New (some NewOptions)).level ∧
    (((New (some NewOptions)).WithValue [Arg.str "a", Arg.str "b"]).1).Info "m" [zeroField] =
      (New (some NewOptions)).Info "m" [zeroField] ∧
    (((New (some NewOptions)).WithValue [Arg.str "a", Arg.str "b"]).1).V 1 =
      (New (some NewOptions)).V 1 ∧
    (((New (some NewOptions)).WithValue [Arg.str "a", Arg.str "b"]).2).zapLogger.context =
      (New (some NewOptions)).zapLogger.context ++
        (handleFields [Arg.str "a", Arg.str "b"] []).1 ∧
    (((New (some NewOptions)).WithName "api").2).zapLogger =
      zapNamed (New (some NewOptions)).zapLogger "api" :=
  WithValue_WithName_non_mutating (New (some NewOptions))
    [Arg.str "a", Arg.str "b"] "api" "m" [zeroField] 1

/-- C9.  When the configured level text fails to parse, New recovers
locally: the constructed logger is built at the informational level —
both the embedded info handle and the named handle carry minimum level
info — and New surfaces no error for the malformed text (it is total;
its only abort is an engine construction failure, independent of the
level text). -/
theorem New_malformed_level_fallback (opts : Options)
    (h : unmarshalLevelText opts.Level = none) :
    (NewFromOptions opts).log.minLevel = infoLevel ∧
    (NewFromOptions opts).zapLogger.minLevel = infoLevel := by
  constructor
  · simp [NewFromOptions, h]
  · simp [NewFromOptions, h, zapNamed_minLevel]

/-- C9 witness: the level text "verbose" does not parse, and the
constructed logger falls back to the informational level. -/
theorem New_malformed_level_fallback_witness :
    unmarshalLevelText verboseOptions.Level = none ∧
    ((NewFromOptions verboseOptions).log.minLevel = infoLevel ∧
     (NewFromOptions verboseOptions).zapLogger.minLevel = infoLevel) :=
  ⟨by decide, New_malformed_level_fallback verboseOptions (by decide)⟩

/-- C10.  Calling New with a nil options pointer substitutes the
default configuration and constructs the logger exactly as an explicit
call with NewOptions would; it does not fail. -/
theorem New_nil_uses_defaults :
    New none = NewFromOptions NewOptions ∧
    New none = New (some NewOptions) :=
  ⟨rfl, rfl⟩

end Logz
